import Mathlib

/-!
Verification of the WordPress Enterprise installer CLI (src/wordpress.py)
against its natural-language specification.

The CLI is a linear, single-threaded script: each command is embedded as a
pure Lean function from the command-line options, the loaded configuration,
and the operator's interactive answers to a result record collecting the
observable behaviour: the ordered list of workflow phases executed (each
phase is a spinner text / status label in the script), the artifact files
written, the instruction lines echoed, and the exit path taken.  Timing
(time.sleep) and spinner rendering are out of scope per the specification.
-/

/-- Deployment target of `--target {kubernetes|linux}`; the spec calls
`kubernetes` the Cluster target and `linux` the Host target. -/
inductive Target
  | kubernetes
  | linux
deriving DecidableEq

/-- The optional config.yaml contents consulted by `load_config` /
`config.get`: only the two keys that drive branching are modelled
(`sleep_interval` only paces sleeps, which are out of scope).  A `none`
field models an absent key, so that `config.get(key, default)` becomes
`Option.getD`. -/
structure Config where
  push_images : Option Bool
  multi_node : Option Bool
deriving DecidableEq

/-- `config.get('push_images', True)` from src/wordpress.py. -/
def Config.pushImages (c : Config) : Bool := c.push_images.getD true

/-- `config.get('multi_node', False)` from src/wordpress.py. -/
def Config.multiNode (c : Config) : Bool := c.multi_node.getD false

/-- Python truthiness of an optional string option: `None` and the empty
string are falsy (`if not manager_password:`, `if airgap_bundle:`,
`key_file and cert_file`). -/
def truthy (s : Option String) : Bool := s.getD "" ≠ ""

/-- The workflow phases of the install/upgrade commands, one per spinner
status text in src/wordpress.py (the user-visible phase labels of the
spec's Workflow Definition Table). -/
inductive Phase
  | AwaitConfiguration
  | AwaitSetupInfo
  | AwaitRegistryInfo
  | PushImages
  | ValidateHostRequirements
  | SetupHost
  | AwaitOtherHosts
  | InstallStorage
  | InstallRegistry
  | PrepareDisasterRecovery
  | InstallAddOns
  | ValidateEnvironment
  | InstallApplication
  | UpgradeApplication
deriving DecidableEq

/-- The interactive password loop of `install` (src/wordpress.py lines
64-76): `inputs i` is the (password, confirmation) pair the operator types
at the i-th prompt.  Returns the accepted password (or `none` when the
attempts are exhausted) together with the number of prompt-and-confirm
interactions performed.  Called with fuel 3, mirroring `while attempts < 3`
where a mismatch consumes an attempt and the third mismatch cancels. -/
def prompt_loop (inputs : Nat → String × String) : Nat → Nat → Option String × Nat
  | i, 0 => (none, i)
  | i, fuel + 1 =>
    if (inputs i).1 = (inputs i).2 then (some (inputs i).1, i + 1)
    else prompt_loop inputs (i + 1) fuel

/-- The Credential Negotiator: `if not manager_password:` then the
3-attempt prompt loop, otherwise the provided password is used with no
interaction (src/wordpress.py lines 63-76). -/
def resolve_password (provided : Option String) (inputs : Nat → String × String) :
    Option String × Nat :=
  if truthy provided then (provided, 0)
  else prompt_loop inputs 0 3

/-- Whether the self-signed-certificate confirmation prompt is presented:
`if target == 'linux' and not (key_file and cert_file):` and then
`if not yes and not click.confirm(...)` (src/wordpress.py lines 56-59).
The prompt is shown exactly when the target is linux, the cert/key pair is
not complete, and `--yes` was not passed. -/
def self_signed_prompt_shown (target : Target) (key_file cert_file : Option String)
    (yes : Bool) : Bool :=
  decide (target = Target.linux) && !(truthy key_file && truthy cert_file) && !yes

/-- The three `docker pull` lines echoed in the non-airgap dry-run branch
(src/wordpress.py lines 102-104 and 211-213). -/
def pull_instructions : List String :=
  ["docker pull images.wordpress.com/proxy/wordpress/wordpress:latest",
   "docker pull images.wordpress.com/proxy/wordpress/wordpress-runner:latest",
   "docker pull images.wordpress.com/proxy/wordpress/wordpress-actions-runner:latest"]

/-- The `docker tag` and `docker push` lines echoed unconditionally after
the load/pull lines in the dry-run branch (src/wordpress.py lines 105-110
and 214-219). -/
def tag_push_instructions : List String :=
  ["docker tag wordpress:latest registry.example.com/wordpress:latest",
   "docker tag wordpress-runner:latest registry.example.com/wordpress-runner:latest",
   "docker tag wordpress-actions-runner:latest registry.example.com/wordpress-actions-runner:latest",
   "docker push registry.example.com/wordpress:latest",
   "docker push registry.example.com/wordpress-runner:latest",
   "docker push registry.example.com/wordpress-actions-runner:latest"]

/-- The docker instruction lines echoed by the dry-run branch
(src/wordpress.py lines 99-110, identically 208-219): a single
`docker load -i <bundle>` when an airgap bundle was given, otherwise the
three pull lines; in both cases followed by the tag and push lines. -/
def image_instructions (airgap_bundle : Option String) : List String :=
  (if truthy airgap_bundle then ["docker load -i " ++ airgap_bundle.getD ""]
   else pull_instructions) ++ tag_push_instructions

/-- The helm lines echoed by the install dry-run branch
(src/wordpress.py lines 112-115). -/
def helm_install_lines : List String :=
  ["helm install wordpress ./wordpress.tgz ",
   "  --namespace wordpress ",
   "  --create-namespace ",
   "  --values wordpress.yaml\n"]

/-- The helm lines echoed by the upgrade dry-run branch
(src/wordpress.py lines 221-223). -/
def helm_upgrade_lines : List String :=
  ["helm upgrade wordpress ./wordpress.tgz ",
   "  --namespace wordpress ",
   "  --values wordpress.yaml\n"]

/-- Exit path of the install command, identified by the message printed at
the corresponding `return` in src/wordpress.py. -/
inductive InstallOutcome
  | certDeclined
  | retryExhausted
  | dryRunCompleted
  | completed
deriving DecidableEq

/-- Observable behaviour of one install invocation. -/
structure InstallResult where
  certPromptAsked : Bool
  promptAttempts : Nat
  phases : List Phase
  artifacts : List String
  instructions : List String
  outcome : InstallOutcome
deriving DecidableEq

/-- The install command (src/wordpress.py lines 51-163).  `confirm_self_signed`
is the operator's answer to the self-signed-certificate prompt and
`pw_inputs` the stream of password/confirmation entries.  Option values are
already validated by the argument layer (click.Path(exists=True)), which the
spec places out of scope. -/
def install (dry_run : Bool) (airgap_bundle key_file cert_file : Option String)
    (manager_password : Option String) (target : Target) (yes : Bool)
    (config : Config) (confirm_self_signed : Bool)
    (pw_inputs : Nat → String × String) : InstallResult :=
  let asked := self_signed_prompt_shown target key_file cert_file yes
  if asked && !confirm_self_signed then
    { certPromptAsked := asked, promptAttempts := 0, phases := [], artifacts := [],
      instructions := [], outcome := InstallOutcome.certDeclined }
  else
    let pw := resolve_password manager_password pw_inputs
    match pw.1 with
    | none =>
      { certPromptAsked := asked, promptAttempts := pw.2, phases := [], artifacts := [],
        instructions := [], outcome := InstallOutcome.retryExhausted }
    | some _ =>
      match target with
      | Target.kubernetes =>
        if dry_run then
          { certPromptAsked := asked, promptAttempts := pw.2,
            phases := [Phase.AwaitConfiguration],
            artifacts := ["wordpress.tgz", "wordpress.yaml"],
            instructions := image_instructions airgap_bundle ++ helm_install_lines,
            outcome := InstallOutcome.dryRunCompleted }
        else
          { certPromptAsked := asked, promptAttempts := pw.2,
            phases := [Phase.AwaitConfiguration, Phase.AwaitRegistryInfo] ++
              (if truthy airgap_bundle || config.pushImages then [Phase.PushImages] else []) ++
              [Phase.ValidateEnvironment, Phase.InstallApplication],
            artifacts := [], instructions := [],
            outcome := InstallOutcome.completed }
      | Target.linux =>
        { certPromptAsked := asked, promptAttempts := pw.2,
          phases := [Phase.AwaitConfiguration, Phase.AwaitSetupInfo] ++
            (if truthy airgap_bundle || config.pushImages then [Phase.PushImages] else []) ++
            [Phase.ValidateHostRequirements, Phase.SetupHost] ++
            (if config.multiNode then [Phase.AwaitOtherHosts] else []) ++
            [Phase.InstallStorage, Phase.InstallRegistry, Phase.PrepareDisasterRecovery,
             Phase.InstallAddOns, Phase.ValidateEnvironment, Phase.InstallApplication],
          artifacts := [], instructions := [],
          outcome := InstallOutcome.completed }

/-- Exit path of the upgrade command, identified by the message printed at
the corresponding `return` in src/wordpress.py. -/
inductive UpgradeOutcome
  | validationError
  | dryRunCompleted
  | completed
deriving DecidableEq

/-- Observable behaviour of one upgrade invocation. -/
structure UpgradeResult where
  phases : List Phase
  artifacts : List String
  instructions : List String
  outcome : UpgradeOutcome
deriving DecidableEq

/-- The upgrade command (src/wordpress.py lines 174-256): license gate for
airgap bundles first, then the configuration wait, then the per-target
sequence; the dry-run branch exists only for the kubernetes target.
`key_file`/`cert_file` only trigger an informational echo. -/
def upgrade (dry_run : Bool) (airgap_bundle license_path key_file cert_file : Option String)
    (target : Target) (yes : Bool) (config : Config) : UpgradeResult :=
  if truthy airgap_bundle && !truthy license_path then
    { phases := [], artifacts := [], instructions := [],
      outcome := UpgradeOutcome.validationError }
  else
    match target with
    | Target.kubernetes =>
      if dry_run then
        { phases := [Phase.AwaitConfiguration],
          artifacts := ["wordpress.tgz", "wordpress.yaml"],
          instructions := image_instructions airgap_bundle ++ helm_upgrade_lines,
          outcome := UpgradeOutcome.dryRunCompleted }
      else
        { phases := [Phase.AwaitConfiguration, Phase.AwaitRegistryInfo] ++
            (if truthy airgap_bundle || config.pushImages then [Phase.PushImages] else []) ++
            [Phase.ValidateEnvironment, Phase.UpgradeApplication],
          artifacts := [], instructions := [],
          outcome := UpgradeOutcome.completed }
    | Target.linux =>
      { phases := [Phase.AwaitConfiguration, Phase.AwaitRegistryInfo] ++
          (if truthy airgap_bundle || config.pushImages then [Phase.PushImages] else []) ++
          [Phase.ValidateEnvironment, Phase.UpgradeApplication],
        artifacts := [], instructions := [],
        outcome := UpgradeOutcome.completed }

/-- Observable behaviour of one support-bundle invocation with respect to
the staging directory and the archive. `raised` means an uncaught exception
propagated out of the command body (the command fails). -/
structure SupportBundleResult where
  dirCreated : Bool
  archiveCreated : Bool
  dirRemoved : Bool
  raised : Bool
deriving DecidableEq

/-- The support_bundle command (src/wordpress.py lines 303-354): creates the
timestamped staging directory, writes the three diagnostic files, packages
the directory with tarfile, then calls `shutil.rmtree(bundle_dir)`.  The two
flags model OS-level failure (a raised exception) of the tarfile packaging
step and of the rmtree call; there is no try/finally or except around
either, so an exception propagates from the point it is raised and the
statements after it never run. -/
def support_bundle (packaging_fails removal_fails : Bool) : SupportBundleResult :=
  if packaging_fails then
    { dirCreated := true, archiveCreated := false, dirRemoved := false, raised := true }
  else if removal_fails then
    { dirCreated := true, archiveCreated := true, dirRemoved := false, raised := true }
  else
    { dirCreated := true, archiveCreated := true, dirRemoved := true, raised := false }

/-- `CURRENT_VERSION` from src/wordpress.py line 12. -/
def CURRENT_VERSION : String := "1.0.0"

/-- Split a character list on the dot separator (the components of a
dotted version string); a trailing or doubled dot yields an empty
component, which parsing then rejects. -/
def split_dots : List Char → List (List Char)
  | [] => [[]]
  | c :: cs =>
    match split_dots cs with
    | [] => [[c]]
    | r :: rs => if c = '.' then [] :: r :: rs else (c :: r) :: rs

/-- Parse a version component: a non-empty string of decimal digits. -/
def digits_to_nat (cs : List Char) : Option Nat :=
  if cs ≠ [] ∧ cs.all Char.isDigit then
    some (cs.foldl (fun n c => n * 10 + (c.toNat - 48)) 0)
  else none

/-- `packaging.version.parse` restricted to plain numeric release versions,
the shape the spec's Version Negotiator defines (major.minor.patch numeric
fields): the string is split on dots and every component must be a
non-empty digit string; otherwise parsing fails (the code catches the
parse exception).  This fragment serves `check_for_updates`, whose two
compared strings are the plain numeric constants "1.1.0" and "1.0.0"; the
full PEP 440 grammar, needed where the update command parses an arbitrary
operator-supplied string, is `pep440_parse` below, and the two agree on
the two constants this code path parses (`parse_version_agreement`). -/
def parse_version (s : String) : Option (List Nat) :=
  let parts := split_dots s.data
  if parts.all (fun p => (digits_to_nat p).isSome) then
    some (parts.map (fun p => (digits_to_nat p).getD 0))
  else none

/-- Numeric release comparison as `packaging.version` performs it: compare
components left to right, with a missing component equal to zero. -/
def version_cmp : List Nat → List Nat → Ordering
  | [], bs => if bs.all (fun b => b = 0) then Ordering.eq else Ordering.lt
  | a :: as, [] => if 0 < a then Ordering.gt else version_cmp as []
  | a :: as, b :: bs =>
    if a < b then Ordering.lt
    else if b < a then Ordering.gt
    else version_cmp as bs

/-- `check_for_updates` (src/wordpress.py lines 14-25): returns the latest
version when it is strictly newer than `CURRENT_VERSION`, otherwise `None`;
any exception in the check (the simulated version-API request, modelled by
`request_fails`, or an unparsable version) is caught and also yields `None`.
In the prototype the discovered value is hard-coded to "1.1.0" and the
request never fails; both are parameters here because the code stands in
for a real version-API call. -/
def check_for_updates (latest_version : String) (request_fails : Bool) : Option String :=
  if request_fails then none
  else
    match parse_version latest_version, parse_version CURRENT_VERSION with
    | some l, some c => if version_cmp c l = Ordering.lt then some latest_version else none
    | _, _ => none

/-- Whitespace as Python's regex class matches it for str patterns (the
PEP 440 pattern is anchored with optional surrounding whitespace): the
ASCII controls 9-13 and 28-31, space, NEL, NBSP and the Unicode space
separators. -/
def is_space (c : Char) : Bool :=
  let n := c.toNat
  (9 ≤ n && n ≤ 13) || (28 ≤ n && n ≤ 31) || n == 32 || n == 133 || n == 160 ||
  n == 0x1680 || (0x2000 ≤ n && n ≤ 0x200a) || n == 0x2028 || n == 0x2029 ||
  n == 0x202f || n == 0x205f || n == 0x3000

/-- Remove leading and trailing whitespace. -/
def strip_spaces (cs : List Char) : List Char :=
  ((cs.dropWhile is_space).reverse.dropWhile is_space).reverse

/-- ASCII lowercasing, modelling the case-insensitive PEP 440 match. -/
def lower_char (c : Char) : Char :=
  if 'A' ≤ c ∧ c ≤ 'Z' then Char.ofNat (c.toNat + 32) else c

/-- Split off a maximal leading run of decimal digits. -/
def take_digits : List Char → List Char × List Char
  | [] => ([], [])
  | c :: cs =>
    if c.isDigit then
      let p := take_digits cs
      (c :: p.1, p.2)
    else ([], c :: cs)

/-- Numeric value of a digit run. -/
def digits_val (ds : List Char) : Nat :=
  ds.foldl (fun n c => n * 10 + (c.toNat - 48)) 0

/-- Consume one optional PEP 440 separator, one of `-`, `_`, `.`. -/
def skip_sep : List Char → List Char
  | c :: cs => if c = '-' || c = '_' || c = '.' then cs else c :: cs
  | [] => []

/-- Consume the given literal word, or fail. -/
def eat_word : List Char → List Char → Option (List Char)
  | [], cs => some cs
  | _ :: _, [] => none
  | w :: ws, c :: cs => if c = w then eat_word ws cs else none

/-- The optional epoch segment `N!`; when the digits are not followed by
`!` they belong to the release and nothing is consumed. -/
def parse_epoch (cs : List Char) : Nat × List Char :=
  let p := take_digits cs
  match p.1, p.2 with
  | _ :: _, '!' :: rest => (digits_val p.1, rest)
  | _, _ => (0, cs)

/-- The dot-separated numeric groups after the first release number; a
dot not followed by digits is left for the later segments. -/
def parse_release_tail : Nat → List Char → List Nat × List Char
  | 0, cs => ([], cs)
  | fuel + 1, cs =>
    match cs with
    | '.' :: rest =>
      let p := take_digits rest
      match p.1 with
      | [] => ([], cs)
      | _ =>
        let q := parse_release_tail fuel p.2
        (digits_val p.1 :: q.1, q.2)
    | _ => ([], cs)

/-- The mandatory release segment `N(.N)*`. -/
def parse_release (cs : List Char) : Option (List Nat × List Char) :=
  let p := take_digits cs
  match p.1 with
  | [] => none
  | _ =>
    let q := parse_release_tail p.2.length p.2
    some (digits_val p.1 :: q.1, q.2)

/-- A pre-release letter, longest alternative first (equivalent to the
pattern's backtracking order because no shorter alternative can be
continued where the longer one matches); the letters normalise to
`a` (0): a, alpha; `b` (1): b, beta; `rc` (2): c, pre, preview, rc. -/
def parse_pre_letter (cs : List Char) : Option (Nat × List Char) :=
  match eat_word ['a', 'l', 'p', 'h', 'a'] cs with
  | some rest => some (0, rest)
  | none =>
    match eat_word ['b', 'e', 't', 'a'] cs with
    | some rest => some (1, rest)
    | none =>
      match eat_word ['p', 'r', 'e', 'v', 'i', 'e', 'w'] cs with
      | some rest => some (2, rest)
      | none =>
        match eat_word ['p', 'r', 'e'] cs with
        | some rest => some (2, rest)
        | none =>
          match eat_word ['r', 'c'] cs with
          | some rest => some (2, rest)
          | none =>
            match cs with
            | 'a' :: rest => some (0, rest)
            | 'b' :: rest => some (1, rest)
            | 'c' :: rest => some (2, rest)
            | _ => none

/-- The optional separator-and-number tail of a letter segment
(`[-_.]?N?`); with no digits the number defaults to 0 and a present
separator is still consumed, as the anchored greedy pattern does. -/
def group_num (cs : List Char) : Nat × List Char :=
  let cs1 := skip_sep cs
  let p := take_digits cs1
  match p.1 with
  | [] => (0, cs1)
  | _ => (digits_val p.1, p.2)

/-- The optional pre-release segment `[-_.]?(letter)[-_.]?N?`; the tag is
the normalised letter 0 = a, 1 = b, 2 = rc.  When no letter follows,
nothing is consumed. -/
def parse_pre (cs : List Char) : Option (Nat × Nat) × List Char :=
  match parse_pre_letter (skip_sep cs) with
  | some (tag, rest) =>
    let p := group_num rest
    (some (tag, p.1), p.2)
  | none => (none, cs)

/-- The lettered form of the post segment: `[-_.]?(post|rev|r)[-_.]?N?`
(rev and r normalise to post). -/
def parse_post_letter (cs : List Char) : Option Nat × List Char :=
  let cs1 := skip_sep cs
  match eat_word ['p', 'o', 's', 't'] cs1 with
  | some rest =>
    let p := group_num rest
    (some p.1, p.2)
  | none =>
    match eat_word ['r', 'e', 'v'] cs1 with
    | some rest =>
      let p := group_num rest
      (some p.1, p.2)
    | none =>
      match eat_word ['r'] cs1 with
      | some rest =>
        let p := group_num rest
        (some p.1, p.2)
      | none => (none, cs)

/-- The optional post segment: either the implicit form `-N` or the
lettered form. -/
def parse_post (cs : List Char) : Option Nat × List Char :=
  match cs with
  | '-' :: rest =>
    let p := take_digits rest
    match p.1 with
    | [] => parse_post_letter cs
    | _ => (some (digits_val p.1), p.2)
  | _ => parse_post_letter cs

/-- The optional dev segment `[-_.]?dev[-_.]?N?`. -/
def parse_dev (cs : List Char) : Option Nat × List Char :=
  match eat_word ['d', 'e', 'v'] (skip_sep cs) with
  | some rest =>
    let p := group_num rest
    (some p.1, p.2)
  | none => (none, cs)

/-- Lowercase alphanumeric, the character class of a local segment. -/
def is_alnum_lower (c : Char) : Bool := c.isDigit || ('a' ≤ c && c ≤ 'z')

/-- Split off a maximal leading run of lowercase alphanumerics. -/
def take_alnum : List Char → List Char × List Char
  | [] => ([], [])
  | c :: cs =>
    if is_alnum_lower c then
      let p := take_alnum cs
      (c :: p.1, p.2)
    else ([], c :: cs)

/-- One segment of a PEP 440 local version identifier: purely numeric
segments compare as integers, the rest as strings. -/
inductive LocalSeg
  | num (n : Nat)
  | str (s : List Char)
deriving DecidableEq

/-- Classify a (non-empty, alphanumeric) local segment. -/
def classify_seg (seg : List Char) : LocalSeg :=
  if seg.all Char.isDigit then LocalSeg.num (digits_val seg) else LocalSeg.str seg

/-- The further `[-_.]segment` groups of a local version. -/
def parse_local_tail : Nat → List Char → List (List Char) × List Char
  | 0, cs => ([], cs)
  | fuel + 1, cs =>
    match cs with
    | c :: rest =>
      if c = '-' || c = '_' || c = '.' then
        let p := take_alnum rest
        match p.1 with
        | [] => ([], cs)
        | _ =>
          let q := parse_local_tail fuel p.2
          (p.1 :: q.1, q.2)
      else ([], cs)
    | [] => ([], [])

/-- The optional local version `+segment([-_.]segment)*`. -/
def parse_local (cs : List Char) : Option (List LocalSeg) × List Char :=
  match cs with
  | '+' :: rest =>
    let p := take_alnum rest
    match p.1 with
    | [] => (none, cs)
    | _ =>
      let q := parse_local_tail p.2.length p.2
      (some ((p.1 :: q.1).map classify_seg), q.2)
  | _ => (none, cs)

/-- A parsed PEP 440 version as `packaging.version.Version` normalises it:
epoch, release numbers, pre-release (normalised letter tag and number),
post number, dev number, local segments. -/
structure PyVersion where
  epoch : Nat
  release : List Nat
  pre : Option (Nat × Nat)
  post : Option Nat
  dev : Option Nat
  localSeg : Option (List LocalSeg)
deriving DecidableEq

/-- `packaging.version.parse` as the update command uses it
(src/wordpress.py lines 412-418): the anchored PEP 440 pattern, case
insensitive, surrounding whitespace and a leading `v` ignored, matched
against the whole string; `none` models the InvalidVersion exception.
The greedy left-to-right parse below is equivalent to the backtracking
regex because every later segment starts with a character no earlier
greedy repetition can consume (dots only continue the release when
followed by digits, and at most one separator sits between segments). -/
def pep440_parse (s : String) : Option PyVersion :=
  let cs0 := strip_spaces (s.data.map lower_char)
  let cs1 := match cs0 with
    | 'v' :: rest => rest
    | _ => cs0
  let ep := parse_epoch cs1
  match parse_release ep.2 with
  | none => none
  | some (rel, cs3) =>
    let pr := parse_pre cs3
    let po := parse_post pr.2
    let dv := parse_dev po.2
    let lo := parse_local dv.2
    match lo.2 with
    | [] => some { epoch := ep.1, release := rel, pre := pr.1, post := po.1,
                   dev := dv.1, localSeg := lo.1 }
    | _ => none

/-- Three-way comparison on Nat. -/
def nat_cmp (a b : Nat) : Ordering :=
  if a < b then Ordering.lt else if b < a then Ordering.gt else Ordering.eq

/-- The pre-release component of the packaging comparison key: a version
with a dev segment but no pre and no post sorts below everything, a
version without a pre segment otherwise sorts above everything. -/
inductive KPre
  | negInf
  | val (tag n : Nat)
  | inf
deriving DecidableEq

/-- Key value of the pre-release field (`_cmpkey` in packaging). -/
def kpre (v : PyVersion) : KPre :=
  match v.pre, v.post, v.dev with
  | none, none, some _ => KPre.negInf
  | none, _, _ => KPre.inf
  | some p, _, _ => KPre.val p.1 p.2

/-- Order on pre-release keys; tags order a < b < rc as the normalised
letter strings do. -/
def kpre_cmp : KPre → KPre → Ordering
  | KPre.negInf, KPre.negInf => Ordering.eq
  | KPre.negInf, _ => Ordering.lt
  | _, KPre.negInf => Ordering.gt
  | KPre.inf, KPre.inf => Ordering.eq
  | KPre.inf, _ => Ordering.gt
  | _, KPre.inf => Ordering.lt
  | KPre.val t1 n1, KPre.val t2 n2 => (nat_cmp t1 t2).then (nat_cmp n1 n2)

/-- Order on post keys: an absent post segment sorts below any post. -/
def kpost_cmp : Option Nat → Option Nat → Ordering
  | none, none => Ordering.eq
  | none, some _ => Ordering.lt
  | some _, none => Ordering.gt
  | some a, some b => nat_cmp a b

/-- Order on dev keys: an absent dev segment sorts above any dev. -/
def kdev_cmp : Option Nat → Option Nat → Ordering
  | none, none => Ordering.eq
  | none, some _ => Ordering.gt
  | some _, none => Ordering.lt
  | some a, some b => nat_cmp a b

/-- Code-point lexicographic order on character lists, as Python compares
strings. -/
def chars_cmp : List Char → List Char → Ordering
  | [], [] => Ordering.eq
  | [], _ :: _ => Ordering.lt
  | _ :: _, [] => Ordering.gt
  | a :: as, b :: bs => (nat_cmp a.toNat b.toNat).then (chars_cmp as bs)

/-- Order on local segments: numeric segments sort above string segments,
as packaging keys them. -/
def lseg_cmp : LocalSeg → LocalSeg → Ordering
  | LocalSeg.num a, LocalSeg.num b => nat_cmp a b
  | LocalSeg.num _, LocalSeg.str _ => Ordering.gt
  | LocalSeg.str _, LocalSeg.num _ => Ordering.lt
  | LocalSeg.str a, LocalSeg.str b => chars_cmp a b

/-- Python tuple order on local segment lists: a proper prefix sorts
first. -/
def klocal_cmp_segs : List LocalSeg → List LocalSeg → Ordering
  | [], [] => Ordering.eq
  | [], _ :: _ => Ordering.lt
  | _ :: _, [] => Ordering.gt
  | a :: as, b :: bs => (lseg_cmp a b).then (klocal_cmp_segs as bs)

/-- Order on local keys: an absent local version sorts below any local. -/
def klocal_cmp : Option (List LocalSeg) → Option (List LocalSeg) → Ordering
  | none, none => Ordering.eq
  | none, some _ => Ordering.lt
  | some _, none => Ordering.gt
  | some a, some b => klocal_cmp_segs a b

/-- The full comparison of `packaging.version.Version`: the key tuple
(epoch, trimmed release, pre, post, dev, local) compared lexicographically.
`version_cmp` on the raw release lists agrees with comparing the
trailing-zero-trimmed tuples. -/
def pyversion_cmp (a b : PyVersion) : Ordering :=
  (nat_cmp a.epoch b.epoch).then
    ((version_cmp a.release b.release).then
      ((kpre_cmp (kpre a) (kpre b)).then
        ((kpost_cmp a.post b.post).then
          ((kdev_cmp a.dev b.dev).then
            (klocal_cmp a.localSeg b.localSeg)))))

/-- `a <= b` on parsed versions
(`target_version <= packaging_version.parse(CURRENT_VERSION)`). -/
def pyversion_le (a b : PyVersion) : Bool :=
  match pyversion_cmp a b with
  | Ordering.gt => false
  | _ => true

/-- The parse of `CURRENT_VERSION` ("1.0.0"), which cannot fail; used as
the default for the `Option.getD` below standing in for the unreachable
failure branch of the constant parse. -/
def current_pyversion : PyVersion :=
  { epoch := 0, release := [1, 0, 0], pre := none, post := none, dev := none,
    localSeg := none }

/-- Exit path of the update command, identified by the message printed at
the corresponding `return` in src/wordpress.py. -/
inductive UpdateOutcome
  | invalidVersionFormat
  | downgradeCancelled
  | alreadyLatest
  | updated (v : String)
deriving DecidableEq

/-- The update command (src/wordpress.py lines 408-443): with `--version`,
parse it (failure aborts), and when it is not newer than the current
version require `--yes` or an explicit downgrade confirmation
(`confirm_downgrade` is the operator's answer); without `--version`,
consult `check_for_updates` and report "already running the latest
version" when it yields nothing.  Otherwise the update proceeds to the
chosen version. -/
def update (yes : Bool) (version : Option String) (confirm_downgrade : Bool)
    (latest_version : String) (request_fails : Bool) : UpdateOutcome :=
  match version with
  | some v =>
    match pep440_parse v with
    | none => UpdateOutcome.invalidVersionFormat
    | some target_version =>
      if pyversion_le target_version
          ((pep440_parse CURRENT_VERSION).getD current_pyversion) then
        if !yes && !confirm_downgrade then UpdateOutcome.downgradeCancelled
        else UpdateOutcome.updated v
      else UpdateOutcome.updated v
  | none =>
    match check_for_updates latest_version request_fails with
    | none => UpdateOutcome.alreadyLatest
    | some lv => UpdateOutcome.updated lv

/-- The prompt loop started at attempt `i` with the given fuel performs at
most `fuel` further prompt-and-confirm interactions. -/
theorem prompt_loop_attempts_le (inputs : Nat → String × String) :
    ∀ fuel i, (prompt_loop inputs i fuel).2 ≤ i + fuel := by
  intro fuel
  induction fuel with
  | zero => intro i; simp [prompt_loop]
  | succ n ih =>
    intro i
    rw [prompt_loop]
    split
    · simp
    · have := ih (i + 1)
      omega

/-- The Credential Negotiator performs at most 3 interactions. -/
theorem resolve_password_attempts_le (provided : Option String)
    (inputs : Nat → String × String) : (resolve_password provided inputs).2 ≤ 3 := by
  rw [resolve_password]
  split
  · simp
  · exact prompt_loop_attempts_le inputs 3 0

/-- Three consecutive mismatching confirmations exhaust the loop: no
password is accepted and 3 interactions were consumed. -/
theorem prompt_loop_all_mismatch (inputs : Nat → String × String)
    (h : ∀ i, i < 3 → (inputs i).1 ≠ (inputs i).2) :
    prompt_loop inputs 0 3 = (none, 3) := by
  have h0 := h 0 (by omega)
  have h1 := h 1 (by omega)
  have h2 := h 2 (by omega)
  simp [prompt_loop, h0, h1, h2]

/-- C1: an install on the host (linux) target that passes the certificate
gate and credential resolution executes exactly the phases
AwaitConfiguration, AwaitSetupInfo, PushImages, ValidateHostRequirements,
SetupHost, AwaitOtherHosts, InstallStorage, InstallRegistry,
PrepareDisasterRecovery, InstallAddOns, ValidateEnvironment,
InstallApplication in this order, where PushImages is present iff the
airgap bundle is given or `push_images` (default true) is set, and
AwaitOtherHosts is present iff `multi_node` (default false) is set; no
other phase is skipped or reordered. -/
theorem install_host_phase_order
    (dry_run : Bool) (airgap_bundle key_file cert_file manager_password : Option String)
    (yes : Bool) (config : Config) (confirm_self_signed : Bool)
    (pw_inputs : Nat → String × String)
    (hcert : (self_signed_prompt_shown Target.linux key_file cert_file yes &&
      !confirm_self_signed) = false)
    (p : String) (n : Nat)
    (hpw : resolve_password manager_password pw_inputs = (some p, n)) :
    (install dry_run airgap_bundle key_file cert_file manager_password Target.linux yes
      config confirm_self_signed pw_inputs).phases =
    [Phase.AwaitConfiguration, Phase.AwaitSetupInfo] ++
      (if truthy airgap_bundle || config.pushImages then [Phase.PushImages] else []) ++
      [Phase.ValidateHostRequirements, Phase.SetupHost] ++
      (if config.multiNode then [Phase.AwaitOtherHosts] else []) ++
      [Phase.InstallStorage, Phase.InstallRegistry, Phase.PrepareDisasterRecovery,
       Phase.InstallAddOns, Phase.ValidateEnvironment, Phase.InstallApplication] := by
  simp [install, hcert, hpw]

/-- Witness for C1 at a concrete input: default config, password provided,
self-signed certificate confirmed. -/
theorem install_host_phase_order_witness :
    (install false none none none (some "pw") Target.linux false ⟨none, none⟩ true
      (fun _ => ("", ""))).phases =
    [Phase.AwaitConfiguration, Phase.AwaitSetupInfo, Phase.PushImages,
     Phase.ValidateHostRequirements, Phase.SetupHost, Phase.InstallStorage,
     Phase.InstallRegistry, Phase.PrepareDisasterRecovery, Phase.InstallAddOns,
     Phase.ValidateEnvironment, Phase.InstallApplication] := by
  have h := install_host_phase_order false none none none (some "pw") false ⟨none, none⟩
    true (fun _ => ("", "")) (by decide) "pw" 0 (by decide)
  simpa using h

/-- C3: the Credential Negotiator performs at most 3 prompt-and-confirm
attempts; a non-empty provided password means no interactive prompting at
all; and without a provided password, 3 consecutive mismatched
confirmations (once the certificate gate has passed) abort the command
with the retry-exhausted message after exactly 3 attempts, with no
workflow step executed and no artifact written. -/
theorem install_credential_negotiator
    (dry_run : Bool) (airgap_bundle key_file cert_file manager_password : Option String)
    (target : Target) (yes : Bool) (config : Config) (confirm_self_signed : Bool)
    (pw_inputs : Nat → String × String) :
    (install dry_run airgap_bundle key_file cert_file manager_password target yes config
      confirm_self_signed pw_inputs).promptAttempts ≤ 3
    ∧ (truthy manager_password = true →
        (install dry_run airgap_bundle key_file cert_file manager_password target yes config
          confirm_self_signed pw_inputs).promptAttempts = 0)
    ∧ (truthy manager_password = false →
        (∀ i, i < 3 → (pw_inputs i).1 ≠ (pw_inputs i).2) →
        (self_signed_prompt_shown target key_file cert_file yes &&
          !confirm_self_signed) = false →
        install dry_run airgap_bundle key_file cert_file manager_password target yes config
          confirm_self_signed pw_inputs =
        { certPromptAsked := self_signed_prompt_shown target key_file cert_file yes,
          promptAttempts := 3, phases := [], artifacts := [], instructions := [],
          outcome := InstallOutcome.retryExhausted }) := by
  refine ⟨?_, ?_, ?_⟩
  · by_cases hgate : (self_signed_prompt_shown target key_file cert_file yes &&
        !confirm_self_signed) = true
    · simp [install, hgate]
    · rw [Bool.not_eq_true] at hgate
      rcases hres : resolve_password manager_password pw_inputs with ⟨op, n⟩
      have hn : n ≤ 3 := by
        have hb := resolve_password_attempts_le manager_password pw_inputs
        rw [hres] at hb
        exact hb
      cases op with
      | none => simp [install, hgate, hres]; exact hn
      | some s =>
        cases target with
        | kubernetes =>
          by_cases hdr : dry_run = true <;> simp [install, hgate, hres, hdr, hn]
        | linux => simp [install, hgate, hres, hn]
  · intro hpv
    have hres : resolve_password manager_password pw_inputs = (manager_password, 0) := by
      rw [resolve_password, if_pos hpv]
    by_cases hgate : (self_signed_prompt_shown target key_file cert_file yes &&
        !confirm_self_signed) = true
    · simp [install, hgate]
    · rw [Bool.not_eq_true] at hgate
      cases hmp : manager_password with
      | none => rw [hmp] at hpv; simp [truthy] at hpv
      | some s =>
        rw [hmp] at hres
        cases target with
        | kubernetes =>
          by_cases hdr : dry_run = true <;> simp [install, hgate, hres, hdr]
        | linux => simp [install, hgate, hres]
  · intro hpv hmis hcert
    have hres : resolve_password manager_password pw_inputs = (none, 3) := by
      rw [resolve_password, if_neg (by simp [hpv]), prompt_loop_all_mismatch pw_inputs hmis]
    simp [install, hcert, hres]

/-- Witness for C3 at a concrete input: no provided password, every
attempt mismatching, cluster target. -/
theorem install_credential_negotiator_witness :
    install false none none none none Target.kubernetes false ⟨none, none⟩ false
      (fun _ => ("a", "b")) =
    { certPromptAsked := false, promptAttempts := 3, phases := [], artifacts := [],
      instructions := [], outcome := InstallOutcome.retryExhausted } := by
  have h := install_credential_negotiator false none none none none Target.kubernetes
    false ⟨none, none⟩ false (fun _ => ("a", "b"))
  exact h.2.2 rfl (fun i hi => by decide) (by decide)

/-- C4: a dry-run install or upgrade on the cluster (kubernetes) target
that reaches the workflow (credentials resolved for install, license gate
passed for upgrade) terminates after writing exactly the package archive
wordpress.tgz and the manifest wordpress.yaml and echoing the instruction
lines, and runs none of the real provisioning phases: no AwaitRegistryInfo,
PushImages, ValidateEnvironment, InstallApplication or UpgradeApplication. -/
theorem dry_run_cluster_short_circuit
    (airgap_bundle key_file cert_file manager_password license_path : Option String)
    (yes : Bool) (config : Config) (confirm_self_signed : Bool)
    (pw_inputs : Nat → String × String) (p : String) (n : Nat)
    (hpw : resolve_password manager_password pw_inputs = (some p, n))
    (hlic : (truthy airgap_bundle && !truthy license_path) = false) :
    install true airgap_bundle key_file cert_file manager_password Target.kubernetes yes
      config confirm_self_signed pw_inputs =
      { certPromptAsked := false, promptAttempts := n,
        phases := [Phase.AwaitConfiguration],
        artifacts := ["wordpress.tgz", "wordpress.yaml"],
        instructions := image_instructions airgap_bundle ++ helm_install_lines,
        outcome := InstallOutcome.dryRunCompleted }
    ∧ Phase.AwaitRegistryInfo ∉ (install true airgap_bundle key_file cert_file
        manager_password Target.kubernetes yes config confirm_self_signed pw_inputs).phases
    ∧ Phase.PushImages ∉ (install true airgap_bundle key_file cert_file
        manager_password Target.kubernetes yes config confirm_self_signed pw_inputs).phases
    ∧ Phase.ValidateEnvironment ∉ (install true airgap_bundle key_file cert_file
        manager_password Target.kubernetes yes config confirm_self_signed pw_inputs).phases
    ∧ Phase.InstallApplication ∉ (install true airgap_bundle key_file cert_file
        manager_password Target.kubernetes yes config confirm_self_signed pw_inputs).phases
    ∧ upgrade true airgap_bundle license_path key_file cert_file Target.kubernetes yes
        config =
      { phases := [Phase.AwaitConfiguration],
        artifacts := ["wordpress.tgz", "wordpress.yaml"],
        instructions := image_instructions airgap_bundle ++ helm_upgrade_lines,
        outcome := UpgradeOutcome.dryRunCompleted }
    ∧ Phase.AwaitRegistryInfo ∉ (upgrade true airgap_bundle license_path key_file
        cert_file Target.kubernetes yes config).phases
    ∧ Phase.PushImages ∉ (upgrade true airgap_bundle license_path key_file
        cert_file Target.kubernetes yes config).phases
    ∧ Phase.ValidateEnvironment ∉ (upgrade true airgap_bundle license_path key_file
        cert_file Target.kubernetes yes config).phases
    ∧ Phase.UpgradeApplication ∉ (upgrade true airgap_bundle license_path key_file
        cert_file Target.kubernetes yes config).phases := by
  have hi : install true airgap_bundle key_file cert_file manager_password
      Target.kubernetes yes config confirm_self_signed pw_inputs =
      { certPromptAsked := false, promptAttempts := n,
        phases := [Phase.AwaitConfiguration],
        artifacts := ["wordpress.tgz", "wordpress.yaml"],
        instructions := image_instructions airgap_bundle ++ helm_install_lines,
        outcome := InstallOutcome.dryRunCompleted } := by
    simp [install, self_signed_prompt_shown, hpw]
  have hu : upgrade true airgap_bundle license_path key_file cert_file Target.kubernetes
      yes config =
      { phases := [Phase.AwaitConfiguration],
        artifacts := ["wordpress.tgz", "wordpress.yaml"],
        instructions := image_instructions airgap_bundle ++ helm_upgrade_lines,
        outcome := UpgradeOutcome.dryRunCompleted } := by
    simp [upgrade, hlic]
  refine ⟨hi, ?_, ?_, ?_, ?_, hu, ?_, ?_, ?_, ?_⟩ <;> simp [hi, hu]

/-- Witness for C4 at a concrete input: password provided, no airgap
bundle, default config. -/
theorem dry_run_cluster_short_circuit_witness :
    install true none none none (some "pw") Target.kubernetes false ⟨none, none⟩ false
      (fun _ => ("", "")) =
      { certPromptAsked := false, promptAttempts := 0,
        phases := [Phase.AwaitConfiguration],
        artifacts := ["wordpress.tgz", "wordpress.yaml"],
        instructions := image_instructions none ++ helm_install_lines,
        outcome := InstallOutcome.dryRunCompleted }
    ∧ upgrade true none none none none Target.kubernetes false ⟨none, none⟩ =
      { phases := [Phase.AwaitConfiguration],
        artifacts := ["wordpress.tgz", "wordpress.yaml"],
        instructions := image_instructions none ++ helm_upgrade_lines,
        outcome := UpgradeOutcome.dryRunCompleted } := by
  have h := dry_run_cluster_short_circuit none none none (some "pw") none false
    ⟨none, none⟩ false (fun _ => ("", "")) "pw" 0 (by decide) (by decide)
  exact ⟨h.1, h.2.2.2.2.2.1⟩

/-- C5 counterexample: with an airgap bundle set, the dry-run image
instructions are not a single load-from-local-bundle line; the tag and
push lines are emitted as well. -/
theorem image_instructions_airgap_not_single :
    image_instructions (some "bundle.tar") ≠ ["docker load -i bundle.tar"]
    ∧ image_instructions (some "bundle.tar") =
        "docker load -i bundle.tar" :: tag_push_instructions := by
  exact ⟨by decide, rfl⟩

/-- C5 (amended): with an airgap bundle the load-from-local-bundle line
replaces only the per-image pull lines; the tag and push lines against the
target registry are emitted in both cases.  Pull lines appear only when no
airgap bundle is given. -/
theorem image_instructions_shape (path : String) (hp : path ≠ "") :
    image_instructions (some path) = ("docker load -i " ++ path) :: tag_push_instructions
    ∧ image_instructions none = pull_instructions ++ tag_push_instructions := by
  constructor
  · simp [image_instructions, truthy, hp]
  · simp [image_instructions, truthy]

/-- Witness for the amended C5 at a concrete bundle path. -/
theorem image_instructions_shape_witness :
    image_instructions (some "b.tar") = "docker load -i b.tar" :: tag_push_instructions
    ∧ image_instructions none = pull_instructions ++ tag_push_instructions := by
  have h := image_instructions_shape "b.tar" (by decide)
  exact ⟨h.1, h.2⟩

/-- C6 counterexample: on the cluster (kubernetes) target with no
certificate files and no yes flag, the self-signed-certificate
confirmation is never presented, and the install runs the full workflow
even though the operator would decline it. -/
theorem cluster_cert_prompt_counterexample :
    (install false none none none (some "pw") Target.kubernetes false ⟨none, none⟩ false
      (fun _ => ("", ""))).certPromptAsked = false
    ∧ (install false none none none (some "pw") Target.kubernetes false ⟨none, none⟩ false
        (fun _ => ("", ""))).outcome = InstallOutcome.completed
    ∧ (install false none none none (some "pw") Target.kubernetes false ⟨none, none⟩ false
        (fun _ => ("", ""))).phases ≠ [] := by
  exact ⟨rfl, rfl, by decide⟩

/-- C6 (amended): the ConfirmCertPolicy gate exists only on the host
(linux) target.  There, without a complete cert/key pair and without the
yes flag, the operator is asked before any workflow step, and declining
returns the cancellation outcome with no phase executed, no artifact
written and no password prompting; on the cluster target the confirmation
is never presented. -/
theorem cert_gate_host_only
    (dry_run : Bool) (airgap_bundle key_file cert_file manager_password : Option String)
    (yes : Bool) (config : Config) (confirm_self_signed : Bool)
    (pw_inputs : Nat → String × String)
    (hk : (truthy key_file && truthy cert_file) = false) (hy : yes = false) :
    (install dry_run airgap_bundle key_file cert_file manager_password Target.linux yes
      config confirm_self_signed pw_inputs).certPromptAsked = true
    ∧ (confirm_self_signed = false →
        install dry_run airgap_bundle key_file cert_file manager_password Target.linux yes
          config confirm_self_signed pw_inputs =
        { certPromptAsked := true, promptAttempts := 0, phases := [], artifacts := [],
          instructions := [], outcome := InstallOutcome.certDeclined })
    ∧ (install dry_run airgap_bundle key_file cert_file manager_password Target.kubernetes
        yes config confirm_self_signed pw_inputs).certPromptAsked = false := by
  have hshown : self_signed_prompt_shown Target.linux key_file cert_file yes = true := by
    simp [self_signed_prompt_shown, hk, hy]
  have hnot : self_signed_prompt_shown Target.kubernetes key_file cert_file yes = false := by
    simp [self_signed_prompt_shown]
  refine ⟨?_, ?_, ?_⟩
  · by_cases hc : confirm_self_signed = true
    · rcases hres : resolve_password manager_password pw_inputs with ⟨op, n⟩
      cases op <;> simp [install, hshown, hc, hres]
    · rw [Bool.not_eq_true] at hc
      simp [install, hshown, hc]
  · intro hc
    simp [install, hshown, hc]
  · rcases hres : resolve_password manager_password pw_inputs with ⟨op, n⟩
    cases op <;> by_cases hdr : dry_run = true <;> simp [install, hnot, hres, hdr]

/-- Witness for the amended C6 at a concrete input: host target, no cert
files, no yes flag, operator declines; same flags on the cluster target
never present the prompt. -/
theorem cert_gate_host_only_witness :
    install false none none none none Target.linux false ⟨none, none⟩ false
      (fun _ => ("", "")) =
    { certPromptAsked := true, promptAttempts := 0, phases := [], artifacts := [],
      instructions := [], outcome := InstallOutcome.certDeclined }
    ∧ (install false none none none none Target.kubernetes false ⟨none, none⟩ false
        (fun _ => ("", ""))).certPromptAsked = false := by
  have h := cert_gate_host_only false none none none none false ⟨none, none⟩ false
    (fun _ => ("", "")) (by decide) rfl
  exact ⟨h.2.1 rfl, h.2.2⟩

/-- C2 counterexample: when archive packaging raises, the staging
directory is not removed and the exception propagates (the command
fails); when the removal itself raises, the command fails rather than
logging and succeeding. -/
theorem support_bundle_cleanup_counterexample :
    (support_bundle true false).dirRemoved = false
    ∧ (support_bundle true false).raised = true
    ∧ (support_bundle false true).raised = true := by
  decide

/-- C2 (amended): the staging directory is removed exactly when both the
archive packaging and the removal succeed; a packaging failure leaves the
staging directory behind, creates no archive, and fails the command; a
removal failure also propagates and fails the command. -/
theorem support_bundle_cleanup (packaging_fails removal_fails : Bool) :
    ((support_bundle packaging_fails removal_fails).dirRemoved = true ↔
      packaging_fails = false ∧ removal_fails = false)
    ∧ (packaging_fails = true →
        (support_bundle packaging_fails removal_fails).raised = true
        ∧ (support_bundle packaging_fails removal_fails).archiveCreated = false
        ∧ (support_bundle packaging_fails removal_fails).dirRemoved = false)
    ∧ (removal_fails = true → (support_bundle packaging_fails removal_fails).raised = true)
    ∧ (support_bundle packaging_fails removal_fails).dirCreated = true := by
  cases packaging_fails <;> cases removal_fails <;> decide

/-- Witness for the amended C2 at concrete failure flags. -/
theorem support_bundle_cleanup_witness :
    (support_bundle true false).raised = true
    ∧ (support_bundle false false).dirRemoved = true := by
  have h1 := support_bundle_cleanup true false
  have h2 := support_bundle_cleanup false false
  exact ⟨(h1.2.1 rfl).1, (h2.1).mpr ⟨rfl, rfl⟩⟩

/-- C7: an upgrade with an airgap bundle and no license path stops with
the validation error, with no phase executed, no artifact written and no
instruction emitted. -/
theorem upgrade_airgap_license_gate
    (dry_run : Bool) (airgap_bundle license_path key_file cert_file : Option String)
    (target : Target) (yes : Bool) (config : Config)
    (ha : truthy airgap_bundle = true) (hl : truthy license_path = false) :
    upgrade dry_run airgap_bundle license_path key_file cert_file target yes config =
    { phases := [], artifacts := [], instructions := [],
      outcome := UpgradeOutcome.validationError } := by
  simp [upgrade, ha, hl]

/-- Witness for C7 at a concrete input. -/
theorem upgrade_airgap_license_gate_witness :
    upgrade false (some "bundle.tar") none none none Target.kubernetes false ⟨none, none⟩ =
    { phases := [], artifacts := [], instructions := [],
      outcome := UpgradeOutcome.validationError } := by
  have h := upgrade_airgap_license_gate false (some "bundle.tar") none none none
    Target.kubernetes false ⟨none, none⟩ (by decide) rfl
  exact h

/-- Agreement of the release-only fragment with the full PEP 440 grammar
on the two version constants the discovery code path ever parses. -/
theorem parse_version_agreement :
    parse_version "1.1.0" = some [1, 1, 0]
    ∧ pep440_parse "1.1.0" = some ⟨0, [1, 1, 0], none, none, none, none⟩
    ∧ parse_version "1.0.0" = some [1, 0, 0]
    ∧ pep440_parse "1.0.0" = some current_pyversion := by
  decide

/-- PEP 440 behaviour of the update command's version parse beyond plain
releases: a leading v and surrounding whitespace normalise away, pre and
post segments parse, and the downgrade gate follows the packaging order:
1.0.1rc1 is newer than 1.0.0 so the update proceeds, v1.0.0 normalises
equal to 1.0.0 and is gated, 1.0.0rc1 is older and gated, 1.0.0.post1 is
newer and proceeds. -/
theorem update_pep440_examples :
    pep440_parse "v1.0.0" = some current_pyversion
    ∧ pep440_parse " 1.0.0" = some current_pyversion
    ∧ pep440_parse "1.0.1rc1" = some ⟨0, [1, 0, 1], some (2, 1), none, none, none⟩
    ∧ pep440_parse "1.0.0.post1" = some ⟨0, [1, 0, 0], none, some 1, none, none⟩
    ∧ update false (some "1.0.1rc1") false "1.1.0" false =
        UpdateOutcome.updated "1.0.1rc1"
    ∧ update false (some "v1.0.0") false "1.1.0" false =
        UpdateOutcome.downgradeCancelled
    ∧ update false (some "1.0.0rc1") false "1.1.0" false =
        UpdateOutcome.downgradeCancelled
    ∧ update false (some "1.0.0.post1") false "1.1.0" false =
        UpdateOutcome.updated "1.0.0.post1" := by
  decide

/-- C9: without a requested version the update consults the discovery
check; a failed discovery request yields no candidate, as does a
discovered version not newer than the current one, and in exactly those
cases the command reports already-latest (an informational outcome, not an
error) and performs no update. -/
theorem update_discovery_degrades (yes confirm_downgrade : Bool)
    (latest_version : String) (request_fails : Bool) :
    (request_fails = true → check_for_updates latest_version request_fails = none)
    ∧ (∀ l, parse_version latest_version = some l →
        version_cmp ((parse_version CURRENT_VERSION).getD []) l ≠ Ordering.lt →
        check_for_updates latest_version request_fails = none)
    ∧ (update yes none confirm_downgrade latest_version request_fails =
        UpdateOutcome.alreadyLatest ↔
      check_for_updates latest_version request_fails = none) := by
  refine ⟨?_, ?_, ?_⟩
  · intro h
    simp [check_for_updates, h]
  · intro l hl hcmp
    have hc : parse_version CURRENT_VERSION = some [1, 0, 0] := by decide
    have hcmp2 : version_cmp [1, 0, 0] l ≠ Ordering.lt := by
      rw [hc] at hcmp
      simpa using hcmp
    cases request_fails
    · simp [check_for_updates, hl, hc, hcmp2]
    · simp [check_for_updates]
  · cases hcc : check_for_updates latest_version request_fails <;> simp [update, hcc]

/-- Witness for C9 at a concrete input: the discovered version equals the
current version, so the command reports already-latest. -/
theorem update_discovery_degrades_witness :
    check_for_updates "1.0.0" false = none
    ∧ update false none false "1.0.0" false = UpdateOutcome.alreadyLatest := by
  have h := update_discovery_degrades false false "1.0.0" false
  have hn : check_for_updates "1.0.0" false = none :=
    h.2.1 [1, 0, 0] (by decide) (by decide)
  exact ⟨hn, h.2.2.mpr hn⟩

/-- C10: on the host (linux) target the dry-run flag has no effect on
install or upgrade: the results with and without the flag are identical,
and no artifact or instruction line is ever produced on that target. -/
theorem host_dry_run_ignored
    (airgap_bundle key_file cert_file manager_password license_path : Option String)
    (yes : Bool) (config : Config) (confirm_self_signed : Bool)
    (pw_inputs : Nat → String × String) :
    install true airgap_bundle key_file cert_file manager_password Target.linux yes config
      confirm_self_signed pw_inputs =
    install false airgap_bundle key_file cert_file manager_password Target.linux yes config
      confirm_self_signed pw_inputs
    ∧ (install true airgap_bundle key_file cert_file manager_password Target.linux yes
        config confirm_self_signed pw_inputs).artifacts = []
    ∧ (install true airgap_bundle key_file cert_file manager_password Target.linux yes
        config confirm_self_signed pw_inputs).instructions = []
    ∧ upgrade true airgap_bundle license_path key_file cert_file Target.linux yes config =
      upgrade false airgap_bundle license_path key_file cert_file Target.linux yes config
    ∧ (upgrade true airgap_bundle license_path key_file cert_file Target.linux yes
        config).artifacts = []
    ∧ (upgrade true airgap_bundle license_path key_file cert_file Target.linux yes
        config).instructions = [] := by
  have hart : ∀ dr : Bool,
      (install dr airgap_bundle key_file cert_file manager_password Target.linux yes config
        confirm_self_signed pw_inputs).artifacts = []
      ∧ (install dr airgap_bundle key_file cert_file manager_password Target.linux yes
          config confirm_self_signed pw_inputs).instructions = [] := by
    intro dr
    by_cases hgate : (self_signed_prompt_shown Target.linux key_file cert_file yes &&
        !confirm_self_signed) = true
    · simp [install, hgate]
    · rw [Bool.not_eq_true] at hgate
      rcases hres : resolve_password manager_password pw_inputs with ⟨op, n⟩
      cases op <;> simp [install, hgate, hres]
  have huart : ∀ dr : Bool,
      (upgrade dr airgap_bundle license_path key_file cert_file Target.linux yes
        config).artifacts = []
      ∧ (upgrade dr airgap_bundle license_path key_file cert_file Target.linux yes
          config).instructions = [] := by
    intro dr
    by_cases hlic : (truthy airgap_bundle && !truthy license_path) = true
    · simp [upgrade, hlic]
    · rw [Bool.not_eq_true] at hlic
      simp [upgrade, hlic]
  exact ⟨rfl, (hart true).1, (hart true).2, rfl, (huart true).1, (huart true).2⟩
